import Mathlib

/-!
Verification of `scripts/validate-skills-ref.py`.

The script has three parts:
* `_parse_frontmatter` : extract a key/value mapping from a `---`-delimited
  block at the top of a text document;
* `_manual_lint` : run a fixed set of checks against `SKILL.md` and the
  filesystem, producing a list of error strings;
* `main` : combine the external validator's exit status with the manual
  report into the process exit status.

Python string primitives (`str.splitlines`, `str.strip`, `str.split`,
`in`, `str.startswith`, `re.findall` for the two concrete patterns used)
are re-implemented below by structural recursion over `List Char`, so all
definitions compute by `decide`/`rfl`.  `str.strip()` is modelled on the
ASCII whitespace characters; the rarely-seen non-ASCII Unicode whitespace
is elided.  The filesystem and the directory layout around the script are
abstracted into the `RepoFS` record: each filesystem probe the script
performs is one field.
-/

namespace SkillsRef

/-- ASCII whitespace, as stripped by Python's `str.strip()`. -/
def pySpace (c : Char) : Bool :=
  c = ' ' || c = '\t' || c = '\n' || c = '\x0d' || c = '\x0b' || c = '\x0c'

/-- Drop characters satisfying `p` from both ends of a character list. -/
def stripWhile (p : Char → Bool) (l : List Char) : List Char :=
  ((l.dropWhile p).reverse.dropWhile p).reverse

/-- Python `str.strip()` (ASCII whitespace). -/
def pyStrip (s : String) : String := String.mk (stripWhile pySpace s.data)

/-- Python `str.strip(c)` for a single character `c`: removes ALL leading
and trailing occurrences of `c`. -/
def stripChar (c : Char) (s : String) : String :=
  String.mk (stripWhile (fun d => d = c) s.data)

/-- Line-break characters recognised by Python `str.splitlines`. -/
def pyLineBreak (c : Char) : Bool :=
  c = '\n' || c = '\x0d' || c = '\x0b' || c = '\x0c' ||
  c = '\x1c' || c = '\x1d' || c = '\x1e' || c = '\x85' ||
  c = '\u2028' || c = '\u2029'

/-- Worker for `splitlines`: `acc` holds the current line, reversed. -/
def splitlinesAux : List Char → List Char → List String
  | [], [] => []
  | [], acc => [String.mk acc.reverse]
  | '\x0d' :: '\n' :: rest, acc => String.mk acc.reverse :: splitlinesAux rest []
  | c :: rest, acc =>
      if pyLineBreak c then String.mk acc.reverse :: splitlinesAux rest []
      else splitlinesAux rest (c :: acc)

/-- Python `str.splitlines()`. -/
def splitlines (s : String) : List String := splitlinesAux s.data []

/-- Does `pat` occur inside `s` as a contiguous sublist?  Models Python's
`pat in s` substring test. -/
def containsSub (pat : List Char) : List Char → Bool
  | [] => List.isPrefixOf pat []
  | c :: rest => List.isPrefixOf pat (c :: rest) || containsSub pat rest

/-- Python `pat in text` for strings. -/
def containsSubstr (text pat : String) : Bool := containsSub pat.data text.data

/-- Python `line.split(":", 1)` guarded by `":" in line`: `none` when the
line has no colon, otherwise the parts before and after the first colon. -/
def splitColon (line : String) : Option (String × String) :=
  if line.data.contains ':' then
    some (String.mk (line.data.takeWhile (fun c => c ≠ ':')),
          String.mk ((line.data.dropWhile (fun c => c ≠ ':')).tail))
  else none

/-- The value transform of `_parse_frontmatter`:
`value.strip().strip('"').strip("'")`. -/
def stripQuotes (v : String) : String :=
  stripChar '\'' (stripChar '"' (pyStrip v))

/-- Python dict assignment `d[k] = v`: overwrite in place, else append. -/
def dictSet : List (String × String) → String → String → List (String × String)
  | [], k, v => [(k, v)]
  | (k', v') :: rest, k, v =>
      if k' = k then (k, v) :: rest else (k', v') :: dictSet rest k v

/-- Python `d.get(k)`. -/
def dictGet (d : List (String × String)) (k : String) : Option String :=
  (d.find? (fun p => p.1 = k)).map (fun p => p.2)

/-- The loop of `_parse_frontmatter` over the lines after the opening
delimiter: stop at a line whose strip is `---`, skip lines without a
colon, otherwise split on the first colon and store the stripped key and
quote-stripped value. -/
def parseFMLines : List String → List (String × String) → List (String × String)
  | [], fm => fm
  | line :: rest, fm =>
      if pyStrip line = "---" then fm
      else
        match splitColon line with
        | none => parseFMLines rest fm
        | some (k, v) => parseFMLines rest (dictSet fm (pyStrip k) (stripQuotes v))

/-- `_parse_frontmatter`: empty mapping unless the first line strips to
`---`; otherwise scan the remaining lines. -/
def parseFrontmatter (text : String) : List (String × String) :=
  match splitlines text with
  | [] => []
  | first :: rest =>
      if pyStrip first = "---" then parseFMLines rest [] else []

/-- State machine for `re.findall` with the generic backtick pattern
(a backtick, one or more non-backtick characters, a backtick, capturing
the middle).  `none` = outside any candidate match; `some acc` = an
opening backtick was seen and `acc` holds the captured characters so far,
reversed.  Matches are non-overlapping and scanned left to right, exactly
as Python's `re.findall` does. -/
def scanTicksAux : Option (List Char) → List Char → List String
  | _, [] => []
  | none, c :: rest =>
      if c = '`' then scanTicksAux (some []) rest else scanTicksAux none rest
  | some acc, c :: rest =>
      if c = '`' then
        if acc = [] then scanTicksAux (some []) rest
        else String.mk acc.reverse :: scanTicksAux none rest
      else scanTicksAux (some (c :: acc)) rest

/-- All captures of the generic backtick pattern in `s`. -/
def backtickTokens (s : String) : List String := scanTicksAux none s.data

/-- The fixed path prefix of the reference pattern. -/
def refPrefixChars : List Char := "references/".data

/-- State of the scanner for the reference pattern (a backtick, the
literal `references/`, one or more non-backtick characters, a backtick,
capturing everything between the backticks). -/
inductive RefScan where
  | outside : RefScan
  | matched (pending : List Char) : RefScan
  | inside (acc : List Char) : RefScan

/-- State machine for `re.findall` with the reference pattern.  In state
`matched pending`, `pending` is the part of `references/` still to be
matched; in state `inside acc`, the prefix has been fully matched and
`acc` (reversed) holds the non-backtick characters seen after it.  A
backtick always (re)opens a candidate match, faithfully to the regex
engine's restart-at-next-position behaviour, since `references/` itself
contains no backtick. -/
def scanRefsAux : RefScan → List Char → List String
  | _, [] => []
  | .outside, c :: rest =>
      if c = '`' then scanRefsAux (.matched refPrefixChars) rest
      else scanRefsAux .outside rest
  | .matched [], c :: rest =>
      if c = '`' then scanRefsAux (.matched refPrefixChars) rest
      else scanRefsAux (.inside [c]) rest
  | .matched (p :: ps), c :: rest =>
      if c = '`' then scanRefsAux (.matched refPrefixChars) rest
      else if c = p then scanRefsAux (.matched ps) rest
      else scanRefsAux .outside rest
  | .inside acc, c :: rest =>
      if c = '`' then
        String.mk (refPrefixChars ++ acc.reverse) :: scanRefsAux .outside rest
      else scanRefsAux (.inside (c :: acc)) rest

/-- All captures of the reference pattern in `s`. -/
def refTokens (s : String) : List String := scanRefsAux .outside s.data

/-- Python `str.startswith`. -/
def pyStartsWith (s pre : String) : Bool := List.isPrefixOf pre.data s.data

/-- The roles loop of `_manual_lint`: a line stripping to the section
heading turns collection on (and is itself skipped); once collection is
on, a line starting with `### ` ends it; every other line while
collection is on contributes its backtick tokens. -/
def collectRoles : List String → Bool → List String
  | [], _ => []
  | line :: rest, inTable =>
      if pyStrip line = "### Available Roles" then collectRoles rest true
      else if inTable && pyStartsWith line "### " then []
      else if inTable then backtickTokens line ++ collectRoles rest inTable
      else collectRoles rest inTable

/-- Python `set(...)` over a token list, modelled as first-occurrence
deduplication (set iteration order is unspecified in Python; only the
collection of distinct elements matters to the checks). -/
def dedupFirst : List String → List String → List String
  | _, [] => []
  | seen, x :: xs =>
      if x ∈ seen then dedupFirst seen xs else x :: dedupFirst (x :: seen) xs

/-- The errors `_manual_lint` can append, one constructor per `append`
site in the source, carrying the interpolated data. -/
inductive LintError where
  | missingSkill : LintError
  | tooLong (n : Nat) : LintError
  | deprecatedPath : LintError
  | nameMismatch (name rootName : String) : LintError
  | missingCommonRoles : LintError
  | missingRole (role : String) : LintError
  | refMissing (ref : String) : LintError
  | missingDelegate : LintError
deriving DecidableEq

/-- The exact strings `_manual_lint` appends. -/
def render : LintError → String
  | .missingSkill => "SKILL.md is missing."
  | .tooLong n =>
      "SKILL.md should be 500 lines or fewer (found " ++ toString n ++ ")."
  | .deprecatedPath =>
      "SKILL.md references utilities/common-roles/, but the directory is common-roles/."
  | .nameMismatch name rootName =>
      "Frontmatter name '" ++ name ++ "' must match folder name '" ++ rootName ++ "'."
  | .missingCommonRoles => "Missing common-roles/ directory."
  | .missingRole role =>
      "Role listed in SKILL.md missing: common-roles/" ++ role ++ ".md"
  | .refMissing ref => "Referenced file not found: " ++ ref
  | .missingDelegate =>
      "SKILL.md references delegate.how-to.md, but the file does not exist."

/-- Abstraction of everything `_manual_lint` observes about the world:
one field per filesystem probe the script performs plus the text of
`SKILL.md` and the repo directory's own name. -/
structure RepoFS where
  /-- `(repo_root / "SKILL.md").exists()` -/
  skillExists : Bool
  /-- `skill_path.read_text(...)` -/
  skillText : String
  /-- `repo_root.name` -/
  rootName : String
  /-- `(repo_root / "common-roles").is_dir()` -/
  commonRolesIsDir : Bool
  /-- `(common_roles_dir / (role ++ ".md")).exists()` -/
  roleFileExists : String → Bool
  /-- `(repo_root / ref).exists()` -/
  refPathExists : String → Bool
  /-- `(repo_root / "delegate.how-to.md").exists()` -/
  delegateExists : Bool

/-- Check 2: line count bound. -/
def lengthErrors (text : String) : List LintError :=
  if 500 < (splitlines text).length then [.tooLong (splitlines text).length]
  else []

/-- Check 3: deprecated `utilities/common-roles` reference. -/
def deprecatedErrors (text : String) : List LintError :=
  if containsSubstr text "utilities/common-roles" then [.deprecatedPath] else []

/-- Check 4: frontmatter name against folder name.  Python's
`if skill_name and ...` makes both a missing and an EMPTY name pass. -/
def nameErrors (text rootName : String) : List LintError :=
  match dictGet (parseFrontmatter text) "name" with
  | some n => if n ≠ "" ∧ n ≠ rootName then [.nameMismatch n rootName] else []
  | none => []

/-- Check 5: the `common-roles` directory must exist. -/
def dirErrors (commonRolesIsDir : Bool) : List LintError :=
  if !commonRolesIsDir then [.missingCommonRoles] else []

/-- Check 6: every listed role needs its file; no deduplication. -/
def roleErrors (roleFileEx : String → Bool) (lines : List String) : List LintError :=
  ((collectRoles lines false).filter (fun r => !roleFileEx r)).map .missingRole

/-- The reference check applied to an already-extracted token list. -/
def refErrorsOfTokens (refPathEx : String → Bool) (toks : List String) : List LintError :=
  ((dedupFirst [] toks).filter (fun r => !refPathEx r)).map .refMissing

/-- Check 7: every distinct `references/...` token must resolve. -/
def refErrors (refPathEx : String → Bool) (text : String) : List LintError :=
  refErrorsOfTokens refPathEx (refTokens text)

/-- Check 8: `delegate.how-to.md`, if mentioned, must exist. -/
def delegateErrors (text : String) (delegateEx : Bool) : List LintError :=
  if containsSubstr text "delegate.how-to.md" && !delegateEx then [.missingDelegate]
  else []

/-- `_manual_lint`, with errors as structured values: the missing-manifest
early return, then the eight checks' findings concatenated in source
order. -/
def manualLintE (fs : RepoFS) : List LintError :=
  if !fs.skillExists then [.missingSkill]
  else
    lengthErrors fs.skillText ++
    deprecatedErrors fs.skillText ++
    nameErrors fs.skillText fs.rootName ++
    dirErrors fs.commonRolesIsDir ++
    roleErrors fs.roleFileExists (splitlines fs.skillText) ++
    refErrors fs.refPathExists fs.skillText ++
    delegateErrors fs.skillText fs.delegateExists

/-- `_manual_lint` as the list of error strings the script prints. -/
def manualLint (fs : RepoFS) : List String := (manualLintE fs).map render

/-- `main`'s return value, given the external validator's exit status
`rc` and the observed filesystem: `1 if result.returncode != 0 or
manual_errors else 0`. -/
def mainResult (rc : Int) (fs : RepoFS) : Int :=
  if rc ≠ 0 ∨ manualLint fs ≠ [] then 1 else 0

/-- Occurrences of the error `e` in a report. -/
def countE (e : LintError) (l : List LintError) : Nat :=
  l.countP (fun x => decide (x = e))

/-- Occurrences of the string `s` in a list. -/
def countS (s : String) (l : List String) : Nat :=
  l.countP (fun x => decide (x = s))

/-- Is this a length-bound error? -/
def isTooLongE : LintError → Bool
  | .tooLong _ => true
  | _ => false

/-- Is this a name-mismatch error? -/
def isNameMismatchE : LintError → Bool
  | .nameMismatch _ _ => true
  | _ => false

/-- One iteration of the `_parse_frontmatter` loop body on a
non-delimiter line, as a fold step. -/
def fmStep (fm : List (String × String)) (line : String) : List (String × String) :=
  match splitColon line with
  | none => fm
  | some (k, v) => dictSet fm (pyStrip k) (stripQuotes v)

/-- `n` lines, each the single character `x`, joined by newlines: test
fixture for the length bound. -/
def xLines : Nat → List Char
  | 0 => []
  | 1 => ['x']
  | n + 2 => 'x' :: '\n' :: xLines (n + 1)

theorem parseFMLines_cons_step (line : String) (rest : List String)
    (fm : List (String × String)) (h : pyStrip line ≠ "---") :
    parseFMLines (line :: rest) fm = parseFMLines rest (fmStep fm line) := by
  cases hc : splitColon line with
  | none => simp [parseFMLines, h, fmStep, hc]
  | some kv => obtain ⟨k, v⟩ := kv; simp [parseFMLines, h, fmStep, hc]

/-- The frontmatter loop processes exactly the lines before the first
closing delimiter, as a left fold of `fmStep`. -/
theorem parseFMLines_eq_fold (ls : List String) :
    ∀ fm, parseFMLines ls fm
      = (ls.takeWhile (fun s => !decide (pyStrip s = "---"))).foldl fmStep fm := by
  induction ls with
  | nil => intro fm; rfl
  | cons l rest ih =>
      intro fm
      by_cases h : pyStrip l = "---"
      · simp [parseFMLines, h, List.takeWhile_cons]
      · rw [parseFMLines_cons_step l rest fm h]
        simp [List.takeWhile_cons, h, ih]

/-- A colon-free prefix is what `takeWhile` keeps. -/
theorem takeWhile_ne_colon (l m : List Char) (h : l.contains ':' = false) :
    (l ++ ':' :: m).takeWhile (fun c => decide (c ≠ ':')) = l := by
  induction l with
  | nil => simp
  | cons c cs ih =>
      have hc : (':' == c) = false ∧ cs.contains ':' = false := by
        simpa [List.contains_cons] using h
      have hcc : c ≠ ':' := fun he => by simp [he] at hc
      rw [List.cons_append, List.takeWhile_cons, if_pos (decide_eq_true hcc), ih hc.2]

/-- Dropping the colon-free prefix lands on the first colon. -/
theorem dropWhile_ne_colon (l m : List Char) (h : l.contains ':' = false) :
    (l ++ ':' :: m).dropWhile (fun c => decide (c ≠ ':')) = ':' :: m := by
  induction l with
  | nil => simp
  | cons c cs ih =>
      have hc : (':' == c) = false ∧ cs.contains ':' = false := by
        simpa [List.contains_cons] using h
      have hcc : c ≠ ':' := fun he => by simp [he] at hc
      rw [List.cons_append, List.dropWhile_cons, if_pos (decide_eq_true hcc), ih hc.2]

/-- `line.split(":", 1)` on a line of the shape `pre:suf` with a
colon-free `pre` yields exactly `(pre, suf)`: the split happens at the
FIRST colon only. -/
theorem splitColon_append (pre suf : String) (h : pre.data.contains ':' = false) :
    splitColon (pre ++ ":" ++ suf) = some (pre, suf) := by
  obtain ⟨l⟩ := pre
  obtain ⟨m⟩ := suf
  have hdata : ((⟨l⟩ : String) ++ ":" ++ (⟨m⟩ : String)).data = l ++ ':' :: m := by
    simp [String.data_append]
  have hmem : (l ++ ':' :: m).contains ':' = true := by
    simp [List.contains_eq_any_beq, List.any_eq_true]
  unfold splitColon
  rw [hdata, hmem, if_pos rfl, takeWhile_ne_colon l m h, dropWhile_ne_colon l m h]
  simp

theorem countE_append (e : LintError) (l₁ l₂ : List LintError) :
    countE e (l₁ ++ l₂) = countE e l₁ + countE e l₂ := by
  simp [countE, List.countP_append]

theorem countE_map_missingRole (r : String) (l : List String) :
    countE (.missingRole r) (l.map LintError.missingRole) = countS r l := by
  induction l with
  | nil => rfl
  | cons a l ih =>
      simp only [List.map_cons, countE, countS, List.countP_cons] at *
      simp [ih, LintError.missingRole.injEq]

theorem countE_map_refMissing (t : String) (l : List String) :
    countE (.refMissing t) (l.map LintError.refMissing) = countS t l := by
  induction l with
  | nil => rfl
  | cons a l ih =>
      simp only [List.map_cons, countE, countS, List.countP_cons] at *
      simp [ih, LintError.refMissing.injEq]

theorem countS_cons (s a : String) (l : List String) :
    countS s (a :: l) = countS s l + if a = s then 1 else 0 := by
  simp [countS, List.countP_cons]

theorem countS_filter_pos (r : String) (p : String → Bool) (l : List String)
    (h : p r = true) : countS r (l.filter p) = countS r l := by
  induction l with
  | nil => rfl
  | cons a l ih =>
      by_cases hpa : p a = true
      · rw [List.filter_cons_of_pos hpa, countS_cons, ih, countS_cons]
      · rw [List.filter_cons_of_neg (by simpa using hpa), ih, countS_cons]
        have ha : ¬a = r := by
          intro he; rw [he, h] at hpa; exact hpa rfl
        simp [ha]

theorem countS_filter_neg (r : String) (p : String → Bool) (l : List String)
    (h : p r = false) : countS r (l.filter p) = 0 := by
  unfold countS
  refine List.countP_eq_zero.mpr ?_
  intro a ha
  have hp := List.of_mem_filter ha
  intro he
  have : a = r := by simpa using he
  rw [this, h] at hp
  exact Bool.false_ne_true hp

theorem countS_dedupFirst (t : String) (l : List String) :
    ∀ seen, countS t (dedupFirst seen l) = if t ∈ l ∧ t ∉ seen then 1 else 0 := by
  induction l with
  | nil => intro seen; simp [dedupFirst, countS]
  | cons x xs ih =>
      intro seen
      by_cases hx : x ∈ seen
      · rw [show dedupFirst seen (x :: xs) = dedupFirst seen xs by simp [dedupFirst, hx]]
        rw [ih seen]
        by_cases ht : t = x
        · subst ht; simp [hx]
        · simp [ht, List.mem_cons]
      · rw [show dedupFirst seen (x :: xs) = x :: dedupFirst (x :: seen) xs by
          simp [dedupFirst, hx]]
        rw [countS_cons, ih (x :: seen)]
        by_cases ht : t = x
        · subst ht; simp [hx, List.mem_cons]
        · have hxt : ¬x = t := fun he => ht he.symm
          simp [ht, hxt, List.mem_cons]

theorem dedupFirst_append_dup (t : String) (l : List String) :
    ∀ seen, t ∈ seen ∨ t ∈ l → dedupFirst seen (l ++ [t]) = dedupFirst seen l := by
  induction l with
  | nil =>
      intro seen h
      have ht : t ∈ seen := by simpa using h
      simp [dedupFirst, ht]
  | cons x xs ih =>
      intro seen h
      by_cases hx : x ∈ seen
      · simp only [List.cons_append, dedupFirst, hx, if_pos]
        refine ih seen ?_
        rcases h with h | h
        · exact Or.inl h
        · rcases List.mem_cons.mp h with h | h
          · exact Or.inl (h ▸ hx)
          · exact Or.inr h
      · have hnext : t ∈ x :: seen ∨ t ∈ xs := by
          rcases h with h | h
          · exact Or.inl (List.mem_cons_of_mem _ h)
          · rcases List.mem_cons.mp h with h | h
            · exact Or.inl (h ▸ List.mem_cons_self _ _)
            · exact Or.inr h
        rw [show dedupFirst seen ((x :: xs) ++ [t])
              = x :: dedupFirst (x :: seen) (xs ++ [t]) by simp [dedupFirst, hx]]
        rw [show dedupFirst seen (x :: xs) = x :: dedupFirst (x :: seen) xs by
          simp [dedupFirst, hx]]
        rw [ih (x :: seen) hnext]

theorem countP_lengthErrors (p : LintError → Bool) (text : String)
    (hp : ∀ n, p (.tooLong n) = false) : (lengthErrors text).countP p = 0 := by
  unfold lengthErrors; split <;> simp [hp]

theorem countP_deprecatedErrors (p : LintError → Bool) (text : String)
    (hp : p .deprecatedPath = false) : (deprecatedErrors text).countP p = 0 := by
  unfold deprecatedErrors; split <;> simp [hp]

theorem countP_nameErrors (p : LintError → Bool) (text rootName : String)
    (hp : ∀ a b, p (.nameMismatch a b) = false) :
    (nameErrors text rootName).countP p = 0 := by
  unfold nameErrors
  cases dictGet (parseFrontmatter text) "name" with
  | none => rfl
  | some n =>
      by_cases hcond : n ≠ "" ∧ n ≠ rootName
      · simp [hcond, hp n rootName]
      · simp [hcond]

theorem countP_dirErrors (p : LintError → Bool) (b : Bool)
    (hp : p .missingCommonRoles = false) : (dirErrors b).countP p = 0 := by
  unfold dirErrors; split <;> simp [hp]

theorem countP_roleErrors (p : LintError → Bool) (ex : String → Bool)
    (lines : List String) (hp : ∀ r, p (.missingRole r) = false) :
    (roleErrors ex lines).countP p = 0 := by
  unfold roleErrors
  rw [List.countP_map]
  refine List.countP_eq_zero.mpr ?_
  intro a _
  simp [Function.comp, hp]

theorem countP_refErrors (p : LintError → Bool) (ex : String → Bool)
    (text : String) (hp : ∀ r, p (.refMissing r) = false) :
    (refErrors ex text).countP p = 0 := by
  unfold refErrors refErrorsOfTokens
  rw [List.countP_map]
  refine List.countP_eq_zero.mpr ?_
  intro a _
  simp [Function.comp, hp]

theorem countP_delegateErrors (p : LintError → Bool) (text : String) (b : Bool)
    (hp : p .missingDelegate = false) : (delegateErrors text b).countP p = 0 := by
  unfold delegateErrors; split <;> simp [hp]

theorem manualLintE_pos (fs : RepoFS) (h : fs.skillExists = true) :
    manualLintE fs =
      lengthErrors fs.skillText ++ deprecatedErrors fs.skillText ++
      nameErrors fs.skillText fs.rootName ++ dirErrors fs.commonRolesIsDir ++
      roleErrors fs.roleFileExists (splitlines fs.skillText) ++
      refErrors fs.refPathExists fs.skillText ++
      delegateErrors fs.skillText fs.delegateExists := by
  simp [manualLintE, h]

theorem countE_roleErrors (r : String) (ex : String → Bool) (lines : List String) :
    countE (.missingRole r) (roleErrors ex lines)
      = if ex r then 0 else countS r (collectRoles lines false) := by
  unfold roleErrors
  rw [countE_map_missingRole]
  by_cases h : ex r
  · rw [if_pos h]
    exact countS_filter_neg _ _ _ (by simp [h])
  · rw [if_neg h, countS_filter_pos _ _ _ (by simp [Bool.eq_false_iff.mpr h])]

theorem countE_refErrorsOfTokens (t : String) (ex : String → Bool)
    (toks : List String) :
    countE (.refMissing t) (refErrorsOfTokens ex toks)
      = if t ∈ toks ∧ ex t = false then 1 else 0 := by
  unfold refErrorsOfTokens
  rw [countE_map_refMissing]
  by_cases h : ex t
  · rw [countS_filter_neg _ _ _ (by simp [h])]
    simp [h]
  · rw [countS_filter_pos _ _ _ (by simp [Bool.eq_false_iff.mpr h]),
      countS_dedupFirst]
    simp [Bool.eq_false_iff.mpr h]

theorem filter_eq_nil_of_countP (p : LintError → Bool) (l : List LintError)
    (h : l.countP p = 0) : l.filter p = [] :=
  List.filter_eq_nil_iff.mpr (List.countP_eq_zero.mp h)

theorem filter_isTooLongE_self (text : String) :
    (lengthErrors text).filter isTooLongE = lengthErrors text := by
  unfold lengthErrors; split <;> simp [isTooLongE]

theorem countP_nameErrors_self (text rootName : String) :
    (nameErrors text rootName).countP isNameMismatchE
      = match dictGet (parseFrontmatter text) "name" with
        | some n => if n ≠ "" ∧ n ≠ rootName then 1 else 0
        | none => 0 := by
  unfold nameErrors
  cases dictGet (parseFrontmatter text) "name" with
  | none => rfl
  | some n =>
      by_cases hcond : n ≠ "" ∧ n ≠ rootName
      · simp [hcond, isNameMismatchE]
      · simp [hcond]

/-- Lines before the first heading line (in the strip-equality sense) are
ignored by the roles loop; the first such line switches collection on. -/
theorem collectRoles_prefix (pre : List String) (hl : String) (rest : List String)
    (hpre : ∀ l ∈ pre, pyStrip l ≠ "### Available Roles")
    (hhl : pyStrip hl = "### Available Roles") :
    collectRoles (pre ++ hl :: rest) false = collectRoles rest true := by
  induction pre with
  | nil => simp [collectRoles, hhl]
  | cons p ps ih =>
      have hp := hpre p (List.mem_cons_self p ps)
      have hps := ih (fun l hmem => hpre l (List.mem_cons_of_mem p hmem))
      simp [collectRoles, hp, hps]

/-- The report's count of a given missing-role error, for an existing
manifest: zero when the role's file exists, otherwise the role's
multiplicity in the collected roles list. -/
theorem countE_missingRole_manualLint (fs : RepoFS) (r : String)
    (h : fs.skillExists = true) :
    countE (.missingRole r) (manualLintE fs)
      = if fs.roleFileExists r then 0
        else countS r (collectRoles (splitlines fs.skillText) false) := by
  have hpos := countE_roleErrors r fs.roleFileExists (splitlines fs.skillText)
  unfold countE at hpos ⊢
  rw [manualLintE_pos fs h]
  simp only [List.countP_append]
  rw [countP_lengthErrors _ _ (fun n => by simp),
      countP_deprecatedErrors _ _ (by simp),
      countP_nameErrors _ _ _ (fun a b => by simp),
      countP_dirErrors _ _ (by simp),
      countP_refErrors _ _ _ (fun s => by simp),
      countP_delegateErrors _ _ _ (by simp), hpos]
  simp

/-- C1: the process exit status is 0 exactly when the external validator
returned 0 and the manual lint report is empty, and 1 in every other
case; no other exit status is possible. -/
theorem C1_exit_status (rc : Int) (fs : RepoFS) :
    mainResult rc fs = (if rc = 0 ∧ manualLint fs = [] then 0 else 1) ∧
    (mainResult rc fs = 0 ∨ mainResult rc fs = 1) := by
  constructor
  · by_cases h1 : rc = 0 <;> by_cases h2 : manualLint fs = [] <;>
      simp [mainResult, h1, h2]
  · by_cases h1 : rc = 0 <;> by_cases h2 : manualLint fs = [] <;>
      simp [mainResult, h1, h2]

/-- C2: when the manifest file does not exist, the report is exactly the
single missing-manifest error, whatever the companion directory or any
other part of the filesystem looks like. -/
theorem C2_missing_manifest (fs : RepoFS) (h : fs.skillExists = false) :
    manualLintE fs = [.missingSkill] ∧
    manualLint fs = ["SKILL.md is missing."] := by
  constructor
  · simp [manualLintE, h]
  · simp [manualLint, manualLintE, h, render]

theorem C2_missing_manifest_witness :
    manualLint ⟨false, "### Available Roles\n`x` `references/y`", "root", false,
      fun _ => false, fun _ => false, false⟩ = ["SKILL.md is missing."] :=
  (C2_missing_manifest _ rfl).2

/-- C3 (counterexample): the claim keys the header gate on the first
NON-EMPTY line being EXACTLY the delimiter, but the code tests the first
line, whitespace-stripped.  For a document whose first line is `' ---'`
(so its first non-empty line is not exactly `---`), the claim demands the
empty mapping, yet the parser accepts the trimmed delimiter and returns a
non-empty mapping. -/
theorem C3_counterexample :
    (" ---" : String) ≠ "---" ∧
    pyStrip " ---" = "---" ∧
    parseFrontmatter " ---\na: b\n---" = [("a", "b")] ∧
    parseFrontmatter " ---\na: b\n---" ≠ [] := by decide

/-- C3 (amended): the parser returns the empty mapping when there are no
lines or when the FIRST line does not strip (whitespace-trimmed) to the
delimiter `---`; otherwise it folds the key/value extraction step over
the subsequent lines up to (excluding) the first line stripping to `---`,
or all of them if no such line exists. -/
theorem C3_header_gate (text : String) :
    (splitlines text = [] → parseFrontmatter text = []) ∧
    (∀ l rest, splitlines text = l :: rest → pyStrip l ≠ "---" →
        parseFrontmatter text = []) ∧
    (∀ l rest, splitlines text = l :: rest → pyStrip l = "---" →
        parseFrontmatter text
          = (rest.takeWhile (fun s => !decide (pyStrip s = "---"))).foldl fmStep []) := by
  refine ⟨?_, ?_, ?_⟩
  · intro h; simp [parseFrontmatter, h]
  · intro l rest h hne; simp [parseFrontmatter, h, hne]
  · intro l rest h heq
    simp only [parseFrontmatter, h, heq, if_pos]
    exact parseFMLines_eq_fold rest []

theorem C3_header_gate_witness :
    parseFrontmatter "---\nk: v\n---\nz: w" = [("k", "v")] := by
  rw [(C3_header_gate "---\nk: v\n---\nz: w").2.2 "---" ["k: v", "---", "z: w"]
    (by decide) (by decide)]
  decide

/-- C4 (counterexample): quote stripping is not "exactly one layer of
matching quotes from key and value".  The code strips quotes from the
VALUE only (a quoted key keeps its quotes), it strips ALL leading and
trailing quotes of a kind (two layers of double quotes both go), and it
strips double quotes BEFORE single quotes, so the claim's example value
`'"foo"'` parses to `"foo"`, not to `foo`. -/
theorem C4_counterexample :
    dictGet (parseFrontmatter "---\nk: '\"foo\"'\n---") "k" = some "\"foo\"" ∧
    ("\"foo\"" : String) ≠ "foo" ∧
    dictGet (parseFrontmatter "---\n\"q\": v\n---") "\"q\"" = some "v" ∧
    dictGet (parseFrontmatter "---\n\"q\": v\n---") "q" = none := by decide

/-- C4 (amended): a header-block line of shape `pre:suf` with a
colon-free `pre` splits at that first colon; the key is the
whitespace-trimmed `pre` with any quotes kept, and the stored value is
`suf` whitespace-trimmed, then stripped of ALL leading/trailing double
quotes, then of ALL leading/trailing single quotes.  So `"foo"`, `'foo'`
and `""foo""` all parse to `foo`, while `'"foo"'` parses to `"foo"`. -/
theorem C4_split_and_quotes (pre suf : String) (rest : List String)
    (fm : List (String × String))
    (h1 : pre.data.contains ':' = false)
    (h2 : pyStrip (pre ++ ":" ++ suf) ≠ "---") :
    parseFMLines ((pre ++ ":" ++ suf) :: rest) fm
      = parseFMLines rest (dictSet fm (pyStrip pre) (stripQuotes suf)) ∧
    stripQuotes " \"foo\" " = "foo" ∧
    stripQuotes "'foo'" = "foo" ∧
    stripQuotes "\"\"foo\"\"" = "foo" ∧
    stripQuotes "'\"foo\"'" = "\"foo\"" := by
  refine ⟨?_, by decide, by decide, by decide, by decide⟩
  rw [parseFMLines_cons_step _ rest fm h2]
  simp [fmStep, splitColon_append pre suf h1]

theorem C4_split_and_quotes_witness :
    parseFMLines [("name" ++ ":" ++ " \"foo\"")] [] = [("name", "foo")] := by
  rw [(C4_split_and_quotes "name" " \"foo\"" [] [] (by decide) (by decide)).1]
  decide

/-- C9: the header parser is a total function (every input yields a
mapping; totality is intrinsic to the Lean definition, which mirrors the
loop): a block line without the separator is silently skipped with no
effect on the result, empty input gives the empty mapping, and an
unterminated delimiter block still yields its key/value pairs. -/
theorem C9_parser_total (line : String) (rest : List String)
    (fm : List (String × String))
    (h1 : pyStrip line ≠ "---") (h2 : line.data.contains ':' = false) :
    parseFMLines (line :: rest) fm = parseFMLines rest fm ∧
    parseFrontmatter "" = [] ∧
    parseFrontmatter "---\nk: v" = [("k", "v")] := by
  refine ⟨?_, by decide, by decide⟩
  have hc : splitColon line = none := by
    unfold splitColon
    rw [h2]
    simp
  rw [parseFMLines_cons_step line rest fm h1]
  simp [fmStep, hc]

theorem C9_parser_total_witness :
    parseFMLines ["no separator here", "a: b"] [] = parseFMLines ["a: b"] [] :=
  (C9_parser_total "no separator here" ["a: b"] [] (by decide) (by decide)).1

/-- C5 (counterexample): the claim demands a mismatch error for EVERY
declared name differing from the directory name, but Python's truthiness
test `if skill_name and ...` exempts the empty string: a manifest
declaring `name:` (empty value) in a directory named
`codex-delegator-skill` yields no name-mismatch error although the
declared name differs from the directory name. -/
theorem C5_counterexample :
    dictGet (parseFrontmatter "---\nname:\n---") "name" = some "" ∧
    ("" : String) ≠ "codex-delegator-skill" ∧
    (manualLintE ⟨true, "---\nname:\n---", "codex-delegator-skill", true,
        fun _ => false, fun _ => false, true⟩).countP isNameMismatchE = 0 := by
  decide

/-- C5 (amended): for an existing manifest the report carries exactly one
name-mismatch error when the parsed header declares a NON-EMPTY name
different from the root directory's name, and none when the name is
absent, empty, or equal to it. -/
theorem C5_name_mismatch (fs : RepoFS) (h : fs.skillExists = true) :
    (manualLintE fs).countP isNameMismatchE
      = match dictGet (parseFrontmatter fs.skillText) "name" with
        | some n => if n ≠ "" ∧ n ≠ fs.rootName then 1 else 0
        | none => 0 := by
  rw [manualLintE_pos fs h]
  simp only [List.countP_append]
  rw [countP_lengthErrors _ _ (fun n => rfl),
      countP_deprecatedErrors _ _ rfl,
      countP_dirErrors _ _ rfl,
      countP_roleErrors _ _ _ (fun r => rfl),
      countP_refErrors _ _ _ (fun r => rfl),
      countP_delegateErrors _ _ _ rfl]
  simpa using countP_nameErrors_self fs.skillText fs.rootName

theorem C5_name_mismatch_witness :
    (manualLintE ⟨true, "---\nname: wrong\n---", "right", true,
        fun _ => false, fun _ => false, true⟩).countP isNameMismatchE = 1 := by
  rw [C5_name_mismatch _ rfl]
  decide

/-- C6: for an existing manifest, the report carries a length-bound error
exactly when the line count exceeds 500, that error carries the actual
line count, and its rendered message cites that count.  (At 500 lines the
filter is empty; at 501 it is the single error citing 501, as the witness
instantiates.) -/
theorem C6_length_bound (fs : RepoFS) (h : fs.skillExists = true) :
    (manualLintE fs).filter isTooLongE
      = (if 500 < (splitlines fs.skillText).length
         then [LintError.tooLong ((splitlines fs.skillText).length)] else []) ∧
    (∀ n, render (.tooLong n)
      = "SKILL.md should be 500 lines or fewer (found " ++ toString n ++ ").") := by
  refine ⟨?_, fun n => rfl⟩
  rw [manualLintE_pos fs h]
  simp only [List.filter_append]
  rw [filter_eq_nil_of_countP _ _ (countP_deprecatedErrors _ _ rfl),
      filter_eq_nil_of_countP _ _ (countP_nameErrors _ _ _ (fun a b => rfl)),
      filter_eq_nil_of_countP _ _ (countP_dirErrors _ _ rfl),
      filter_eq_nil_of_countP _ _ (countP_roleErrors _ _ _ (fun r => rfl)),
      filter_eq_nil_of_countP _ _ (countP_refErrors _ _ _ (fun r => rfl)),
      filter_eq_nil_of_countP _ _ (countP_delegateErrors _ _ _ rfl),
      filter_isTooLongE_self]
  simp [lengthErrors]

set_option maxRecDepth 100000 in
theorem C6_length_bound_witness :
    (manualLintE ⟨true, String.mk (xLines 501), "root", true,
        fun _ => false, fun _ => false, true⟩).filter isTooLongE
      = [LintError.tooLong 501] := by
  rw [(C6_length_bound _ rfl).1]
  decide

/-- C7: reference tokens are deduplicated before checking: a missing
referenced path occurring anywhere in the text (however many times)
yields exactly one error in the report, and appending one more occurrence
of an already-present token to the token list leaves the reference errors
unchanged. -/
theorem C7_ref_dedup (fs : RepoFS) (t : String) (h : fs.skillExists = true)
    (ht : t ∈ refTokens fs.skillText) (hm : fs.refPathExists t = false) :
    countE (.refMissing t) (manualLintE fs) = 1 ∧
    (∀ l : List String, t ∈ l →
        refErrorsOfTokens fs.refPathExists (l ++ [t])
          = refErrorsOfTokens fs.refPathExists l) := by
  constructor
  · have hpos := countE_refErrorsOfTokens t fs.refPathExists (refTokens fs.skillText)
    rw [if_pos ⟨ht, hm⟩] at hpos
    unfold countE at hpos ⊢
    rw [manualLintE_pos fs h]
    simp only [List.countP_append]
    rw [countP_lengthErrors _ _ (fun n => by simp),
        countP_deprecatedErrors _ _ (by simp),
        countP_nameErrors _ _ _ (fun a b => by simp),
        countP_dirErrors _ _ (by simp),
        countP_roleErrors _ _ _ (fun r => by simp),
        countP_delegateErrors _ _ _ (by simp)]
    have hre : refErrors fs.refPathExists fs.skillText
        = refErrorsOfTokens fs.refPathExists (refTokens fs.skillText) := rfl
    rw [hre, hpos]
  · intro l hl
    unfold refErrorsOfTokens
    rw [dedupFirst_append_dup t l [] (Or.inr hl)]

theorem C7_ref_dedup_witness :
    countE (.refMissing "references/a.md")
      (manualLintE ⟨true, "see `references/a.md` and `references/a.md`", "root",
        true, fun _ => false, fun _ => false, true⟩) = 1 :=
  (C7_ref_dedup _ "references/a.md" rfl (by decide) rfl).1

/-- C8 (counterexample): the claim terminates role collection at the next
heading of the same level, but a second occurrence of the designated
heading line — itself a level-3 heading — does not terminate the loop:
the `strip == heading` branch `continue`s before the `startswith`
break is tested.  Tokens after it are still collected and reported. -/
theorem C8_counterexample :
    splitlines "### Available Roles\n### Available Roles\n`b`"
      = ["### Available Roles", "### Available Roles", "`b`"] ∧
    pyStartsWith "### Available Roles" "### " = true ∧
    collectRoles
      (splitlines "### Available Roles\n### Available Roles\n`b`") false
      = ["b"] ∧
    countE (.missingRole "b")
      (manualLintE ⟨true, "### Available Roles\n### Available Roles\n`b`",
        "root", true, fun _ => false, fun _ => false, true⟩) = 1 := by
  decide

/-- C8 (amended): role collection starts after the first line stripping
to the designated heading; further lines stripping to that same heading
are skipped WITHOUT terminating; collection stops at the first other line
starting with `### `; every other line in the section contributes its
backtick-quoted tokens.  For an existing manifest, a collected role whose
file exists yields no missing-role error, and one collected exactly once
whose file is absent yields exactly one. -/
theorem C8_roles_section (fs : RepoFS) (r : String) (h : fs.skillExists = true) :
    (∀ pre hl rest, splitlines fs.skillText = pre ++ hl :: rest →
        (∀ l ∈ pre, pyStrip l ≠ "### Available Roles") →
        pyStrip hl = "### Available Roles" →
        collectRoles (splitlines fs.skillText) false = collectRoles rest true) ∧
    (∀ line rest, pyStrip line ≠ "### Available Roles" →
        pyStartsWith line "### " = true →
        collectRoles (line :: rest) true = []) ∧
    (∀ line rest, pyStrip line ≠ "### Available Roles" →
        pyStartsWith line "### " = false →
        collectRoles (line :: rest) true
          = backtickTokens line ++ collectRoles rest true) ∧
    (∀ line rest, pyStrip line = "### Available Roles" →
        collectRoles (line :: rest) true = collectRoles rest true) ∧
    (fs.roleFileExists r = true →
        countE (.missingRole r) (manualLintE fs) = 0) ∧
    (fs.roleFileExists r = false →
        countS r (collectRoles (splitlines fs.skillText) false) = 1 →
        countE (.missingRole r) (manualLintE fs) = 1) := by
  refine ⟨?_, ?_, ?_, ?_, ?_, ?_⟩
  · intro pre hl rest hsplit hpre hhl
    rw [hsplit]
    exact collectRoles_prefix pre hl rest hpre hhl
  · intro line rest hne hstart
    simp [collectRoles, hne, hstart]
  · intro line rest hne hstart
    simp [collectRoles, hne, hstart]
  · intro line rest heq
    simp [collectRoles, heq]
  · intro hex
    rw [countE_missingRole_manualLint fs r h, if_pos hex]
  · intro hex hcount
    rw [countE_missingRole_manualLint fs r h, if_neg (by simp [hex]), hcount]

theorem C8_roles_section_witness :
    countE (.missingRole "beta")
      (manualLintE ⟨true, "### Available Roles\n| `alpha` | `beta` |\n### Next",
        "root", true, fun s => s == "alpha", fun _ => false, true⟩) = 1 ∧
    countE (.missingRole "alpha")
      (manualLintE ⟨true, "### Available Roles\n| `alpha` | `beta` |\n### Next",
        "root", true, fun s => s == "alpha", fun _ => false, true⟩) = 0 := by
  constructor
  · exact (C8_roles_section _ "beta" rfl).2.2.2.2.2 (by decide) (by decide)
  · exact (C8_roles_section _ "alpha" rfl).2.2.2.2.1 (by decide)

/-- C10: missing-role errors are NOT deduplicated: a role token occurring
`n` times in the section, whose file is absent, produces `n` identical
missing-role errors in the report. -/
theorem C10_role_no_dedup (fs : RepoFS) (r : String) (n : Nat)
    (h : fs.skillExists = true) (hex : fs.roleFileExists r = false)
    (hc : countS r (collectRoles (splitlines fs.skillText) false) = n) :
    countE (.missingRole r) (manualLintE fs) = n := by
  rw [countE_missingRole_manualLint fs r h, if_neg (by simp [hex]), hc]

theorem C10_role_no_dedup_witness :
    countE (.missingRole "b")
      (manualLintE ⟨true, "### Available Roles\n`b` `b`", "root", true,
        fun _ => false, fun _ => false, true⟩) = 2 :=
  C10_role_no_dedup _ "b" 2 rfl rfl (by decide)

end SkillsRef
